import Mathlib

/-!
Shallow embedding of the Polymarket exit monitor (src/main.py).

Python floats are modelled as rationals (ℚ); Python/JSON values as the
inductive `JVal`; code that can raise is modelled in `Except PyErr`;
the network is modelled by passing each HTTP call's outcome as an
explicit argument.  Log lines and notifier invocations are modelled as
explicit event lists.
-/

/-- A Python exception, tagged by its kind (the payload of `keyError` is the
missing key; `errText` below gives the `str(e)` text used in messages). -/
inductive PyErr where
  | typeError : PyErr
  | attributeError : PyErr
  | keyError (k : String) : PyErr
  | httpError : PyErr
  | connectionError : PyErr
  | jsonDecodeError : PyErr
deriving DecidableEq

/-- A Python/JSON value as it appears in this program: `None`, booleans,
numbers (floats modelled as ℚ), strings, lists and dicts with string keys. -/
inductive JVal where
  | null : JVal
  | bool (b : Bool) : JVal
  | num (q : ℚ) : JVal
  | str (s : String) : JVal
  | list (xs : List JVal) : JVal
  | obj (fields : List (String × JVal)) : JVal

/-- Python dict lookup `d.get(k)` on an association list (first match wins;
Python dicts cannot hold duplicate keys). -/
def assocFind {α : Type} (fs : List (String × α)) (k : String) : Option α :=
  match fs.find? (fun p => p.1 == k) with
  | none => none
  | some p => some p.2

/-- Python truthiness (`bool(x)`) on `JVal`. -/
def truthy : JVal → Bool
  | .null => false
  | .bool b => b
  | .num q => !(decide (q = 0))
  | .str s => !(decide (s = ""))
  | .list xs => !xs.isEmpty
  | .obj fs => !fs.isEmpty

-- ===== Numeric coercion: `safe_float` (src/main.py lines 62-66) =====

/-- Digit string to natural number (helper for the decimal parser). -/
def digitsToNat (cs : List Char) : Nat :=
  cs.foldl (fun n c => n * 10 + (c.toNat - 48)) 0

/-- Parse an unsigned decimal literal (digits, optionally one dot):
the grammar Python `float()` accepts for plain decimals ("5", "5.", ".5",
"0.73"); scientific notation and inf/nan are not sent by the order-book
API and are left out of the model. -/
def parseDecCore (cs : List Char) : Option ℚ :=
  let ip := cs.takeWhile (fun c => c ≠ '.')
  let rest := cs.dropWhile (fun c => c ≠ '.')
  match rest with
  | [] =>
    if !ip.isEmpty && ip.all Char.isDigit then some (digitsToNat ip : ℚ) else none
  | _ :: fp =>
    if fp.elem '.' then none
    else if ip.isEmpty && fp.isEmpty then none
    else if ip.all Char.isDigit && fp.all Char.isDigit then
      some ((digitsToNat ip : ℚ) + (digitsToNat fp : ℚ) / ((10 : ℚ) ^ fp.length))
    else none

/-- Parse an optionally signed decimal literal. -/
def parseSigned (cs : List Char) : Option ℚ :=
  match cs with
  | '+' :: rest => parseDecCore rest
  | '-' :: rest => (parseDecCore rest).map (fun q => -q)
  | _ => parseDecCore cs

/-- Python `float(s)` on a string: surrounding whitespace is stripped,
then a signed decimal literal is parsed. -/
def parseFloatQ (s : String) : Option ℚ :=
  parseSigned (((s.data.dropWhile Char.isWhitespace).reverse.dropWhile
    Char.isWhitespace).reverse)

/-- `safe_float(x)`: `try: return float(x) except Exception: return None`.
`float` succeeds on numbers and bools and on decimal-literal strings, and
raises (here: `none`) on `None`, lists, dicts and malformed strings. -/
def safe_float : JVal → Option ℚ
  | .null => none
  | .bool b => some (if b then 1 else 0)
  | .num q => some q
  | .str s => parseFloatQ s
  | .list _ => none
  | .obj _ => none

-- ===== HTTP layer: `fetch_orderbook` (src/main.py lines 85-95) =====

/-- The outcome of one `requests.get` call: either the request itself raised
(network failure / timeout), or a response arrived with a status code and a
body that either parses as JSON (`some`) or does not (`none`). -/
inductive HttpResult where
  | netFail : HttpResult
  | status (code : Nat) (body : Option JVal) : HttpResult

/-- `Response.raise_for_status()`: raises `HTTPError` for 4xx/5xx codes. -/
def raise_for_status (code : Nat) : Except PyErr Unit :=
  if 400 ≤ code then .error .httpError else .ok ()

/-- The body of `fetch_orderbook`'s `try` block: `requests.get` (may raise),
`r.raise_for_status()` (may raise), `r.json()` (may raise). -/
def fetchBody : HttpResult → Except PyErr JVal
  | .netFail => .error .connectionError
  | .status code body =>
    match raise_for_status code with
    | .error e => .error e
    | .ok _ =>
      match body with
      | some j => .ok j
      | none => .error .jsonDecodeError

/-- `fetch_orderbook(token_id)`: the `try` body wrapped in
`except Exception: return None`. -/
def fetch_orderbook (r : HttpResult) : Option JVal :=
  match fetchBody r with
  | .ok j => some j
  | .error _ => none

-- ===== Best-bid extraction: `best_bid` (src/main.py lines 97-108) =====

/-- Python `k in x` membership test for a string key `k`: key lookup on
dicts, element equality on lists (a string equals only the equal string),
substring test on strings; `TypeError` on numbers, bools and `None`. -/
def strElem (k : String) : JVal → Bool
  | .str s => s == k
  | _ => false

/-- Membership test `"bids" in raw` (see `strElem`). -/
def hasMember (raw : JVal) (k : String) : Except PyErr Bool :=
  match raw with
  | .obj fs => .ok ((assocFind fs k).isSome)
  | .list xs => .ok (xs.any (strElem k))
  | .str s => .ok ((s.splitOn k).length != 1)
  | _ => .error .typeError

/-- Python subscription `raw[k]` with a string key: dict lookup raising
`KeyError` when absent; `TypeError` on every other value. -/
def subscript (raw : JVal) (k : String) : Except PyErr JVal :=
  match raw with
  | .obj fs =>
    match assocFind fs k with
    | some v => .ok v
    | none => .error (.keyError k)
  | _ => .error .typeError

/-- Python iteration `for b in v`: list elements, string characters
(as 1-character strings), dict keys; `TypeError` otherwise. -/
def iterElems : JVal → Except PyErr (List JVal)
  | .list xs => .ok xs
  | .str s => .ok (s.data.map (fun c => JVal.str (String.mk [c])))
  | .obj fs => .ok (fs.map (fun p => JVal.str p.1))
  | _ => .error .typeError

/-- One update of the running maximum, mirroring
`if p is not None and (best is None or p > best): best = p`
for the case where `p` coerced successfully. -/
def runStep (best : Option ℚ) (p : ℚ) : Option ℚ :=
  match best with
  | none => some p
  | some m => if p > m then some p else some m

/-- One loop iteration of `best_bid`: `p = safe_float(b.get("price"))`
(`b.get` raises `AttributeError` unless `b` is a dict; a missing key gives
Python `None`, which fails coercion), then the running-maximum update. -/
def bidStep (best : Option ℚ) (b : JVal) : Except PyErr (Option ℚ) :=
  match b with
  | .obj fs =>
    .ok (match safe_float ((assocFind fs "price").getD JVal.null) with
      | none => best
      | some p => runStep best p)
  | _ => .error .attributeError

/-- The `for b in raw["bids"]` loop of `best_bid`, threading the running
maximum `best`. -/
def bestLoop : Option ℚ → List JVal → Except PyErr (Option ℚ)
  | best, [] => .ok best
  | best, b :: rest =>
    match bidStep best b with
    | .error e => .error e
    | .ok best' => bestLoop best' rest

/-- `best_bid` after the fetch: `if not raw or "bids" not in raw: return
None`, then the running-maximum loop over `raw["bids"]`. -/
def best_bid_raw (raw : Option JVal) : Except PyErr (Option ℚ) :=
  match raw with
  | none => Except.ok none
  | some r =>
    if truthy r then
      match hasMember r "bids" with
      | .error e => .error e
      | .ok false => .ok none
      | .ok true =>
        match subscript r "bids" with
        | .error e => .error e
        | .ok bidsVal =>
          match iterElems bidsVal with
          | .error e => .error e
          | .ok elems => bestLoop none elems
    else Except.ok none

/-- `best_bid(token_id)`: fetch the order book for the token, then extract
the best bid; the outcome of the HTTP call is passed explicitly. -/
def best_bid (r : HttpResult) : Except PyErr (Option ℚ) :=
  best_bid_raw (fetch_orderbook r)

/-- Whether a `JVal` is a dict (an entry on which `b.get` is defined). -/
def isObjB : JVal → Bool
  | .obj _ => true
  | _ => false

/-- The coerced price of one bid entry, when the entry is a dict:
`safe_float(b.get("price"))`. -/
def entryPrice : JVal → Option ℚ
  | .obj fs => safe_float ((assocFind fs "price").getD JVal.null)
  | _ => none

/-- The running-maximum fold over a list of already-coerced prices. -/
def runMax (best : Option ℚ) (ps : List ℚ) : Option ℚ :=
  ps.foldl runStep best

-- ===== Static configuration (src/main.py lines 21-58) =====

/-- `THRESHOLD = 1.01` (alert when `bid_A + bid_B >= THRESHOLD`). -/
def THRESHOLD : ℚ := mkRat 101 100

/-- The `TOKENS` table: market name → outcome leg → instrument identifier
(a numeric-string token id), exactly as in src/main.py lines 34-51. -/
def TOKENS : List (String × List (String × String)) :=
  [("CUT25",
    [("YES", "92703761682322480664976766247614127878023988651992837287050266308961660624165"),
     ("NO", "48193521645113703700467246669338225849301704920590102230072263970163239985027")]),
   ("CUTCUTCUT",
    [("YES", "95417221270011105499568468828531867453865533932484364685389046548264041887861"),
     ("NO", "101322769768415942646735830228475566436146317671120615766292718518675772773223")]),
   ("NOCHANGE",
    [("YES", "112838095111461683880944516726938163688341306245473734071798778736646352193304"),
     ("NO", "7321318078891059430231591636389479745928915782241484131001985601124919020061")]),
   ("CUTCUTPAUSE",
    [("YES", "113401754986342384261044700457165882158632153698445535217371023842472815025478"),
     ("NO", "81906419701908530974011339985097627770048267181648886108185004759027261509242")])]

/-- A monitored combination `(marketA, legA, marketB, legB)`. -/
abbrev Combo := String × String × String × String

/-- `MONITORED_COMBOS` (src/main.py lines 55-58). -/
def MONITORED_COMBOS : List Combo :=
  [("CUT25", "YES", "CUTCUTPAUSE", "YES"),
   ("NOCHANGE", "YES", "CUTCUTCUT", "YES")]

/-- `TOKENS[mkt][leg]`: two nested dict subscriptions, each raising
`KeyError` when the key is absent. -/
def tokensLookup (mkt leg : String) : Except PyErr String :=
  match assocFind TOKENS mkt with
  | none => .error (.keyError mkt)
  | some legs =>
    match assocFind legs leg with
    | none => .error (.keyError leg)
    | some t => .ok t

/-- Whether an `Except` is a success. -/
def exceptOk {ε α : Type} : Except ε α → Bool
  | .ok _ => true
  | .error _ => false

-- ===== Notifier: `telegram_send` (src/main.py lines 68-83) =====

/-- Python truthiness of `os.getenv(...)`: `None` (unset) and the empty
string are falsy. -/
def strTruthy : Option String → Bool
  | none => false
  | some s => !(decide (s = ""))

/-- The two Telegram credentials as read from the environment at startup. -/
structure TelegramConfig where
  botToken : Option String
  chatId : Option String

/-- The JSON payload of the `requests.post` call in `telegram_send`. -/
structure TelegramPayload where
  chat_id : String
  text : String
  parse_mode : String
deriving DecidableEq

/-- The outcome of one `requests.post` call: it either goes through or
raises some exception. -/
inductive SendOutcome where
  | posted : SendOutcome
  | exn : SendOutcome
deriving DecidableEq

/-- What one call of `telegram_send` did: warned and returned without an
HTTP attempt, posted the payload, or caught and logged a delivery error. -/
inductive TelegramResult where
  | notConfigured : TelegramResult
  | sent (p : TelegramPayload) : TelegramResult
  | errorLogged (p : TelegramPayload) : TelegramResult
deriving DecidableEq

/-- `telegram_send(msg)`: if either credential is unset (falsy), print a
warning and return; otherwise build the payload and post it, catching and
logging any exception.  The function's total return type records that it
never raises. -/
def telegram_send (cfg : TelegramConfig) (net : SendOutcome) (msg : String) :
    TelegramResult :=
  if !strTruthy cfg.botToken || !strTruthy cfg.chatId then .notConfigured
  else
    let payload : TelegramPayload := ⟨cfg.chatId.getD "", msg, "HTML"⟩
    match net with
    | .posted => .sent payload
    | .exn => .errorLogged payload

-- ===== Formatting and the alert message (src/main.py lines 128-140) =====

/-- Render a scaled natural number as a fixed-point decimal with `prec`
fractional digits (helper for `formatFixed`). -/
def natFixedStr (prec : Nat) (n : Nat) : String :=
  let ip := n / 10 ^ prec
  let fp := n % 10 ^ prec
  let fs := toString fp
  toString ip ++ "." ++ String.mk (List.replicate (prec - fs.length) '0') ++ fs

/-- Python `f"{q:.precf}"` on the rationals arising here: scale by
`10 ^ prec`, round to the nearest integer (ties are not hit by any value
this program formats, so half-up stands in for Python's half-even), and
render with exactly `prec` fractional digits. -/
def formatFixed (prec : Nat) (q : ℚ) : String :=
  let scaled : Int := (q * (10 : ℚ) ^ prec + mkRat 1 2).floor
  if scaled < 0 then "-" ++ natFixedStr prec scaled.natAbs
  else natFixedStr prec scaled.toNat

/-- The alert message built in `scan_exit_opportunities` (lines 134-140). -/
def alertMsg (mktA legA mktB legB : String) (total : ℚ) : String :=
  "💰 <b>EXIT OPPORTUNITY</b>\n\n" ++ mktA ++ " " ++ legA ++ " + " ++ mktB
    ++ " " ++ legB ++ "\n" ++ "Bid sum: <b>" ++ formatFixed 4 total
    ++ "</b>\n" ++ "Threshold: " ++ formatFixed 2 THRESHOLD ++ "\n\n"
    ++ "Consider selling both positions."

/-- `s` contains `pat` as a substring. -/
def StrContains (s pat : String) : Prop :=
  ∃ pre post, s = pre ++ pat ++ post

-- ===== Scanner: `scan_exit_opportunities` (src/main.py lines 112-142) =====

/-- One observable step of the scan: the "missing bids" log line, the
per-combination evaluation log line, a Notifier invocation with the alert
message, and the "Alert sent" log line. -/
inductive ScanEvent where
  | missingBids (mktA legA mktB legB : String) : ScanEvent
  | evalLine (mktA legA mktB legB : String) (bidA bidB total : ℚ) : ScanEvent
  | notify (msg : String) : ScanEvent
  | alertLogged : ScanEvent
deriving DecidableEq

/-- The per-combination body after both best bids were computed
(src/main.py lines 122-142): skip with a "missing bids" line when either
is `None`; otherwise log the evaluation line, and when
`total >= THRESHOLD` build the alert message, invoke the Notifier and log
"Alert sent". -/
def evalCombo (mktA legA mktB legB : String) (bidA bidB : Option ℚ) :
    List ScanEvent :=
  match bidA, bidB with
  | some a, some b =>
    if a + b ≥ THRESHOLD then
      [ScanEvent.evalLine mktA legA mktB legB a b (a + b),
       ScanEvent.notify (alertMsg mktA legA mktB legB (a + b)),
       ScanEvent.alertLogged]
    else [ScanEvent.evalLine mktA legA mktB legB a b (a + b)]
  | _, _ => [ScanEvent.missingBids mktA legA mktB legB]

/-- One iteration of the scan loop: resolve both instrument identifiers
(may raise `KeyError`), compute both best bids (may raise), then the
per-combination body.  `env` gives the outcome of the HTTP fetch for each
token id. -/
def scanCombo (env : String → HttpResult) (c : Combo) :
    Except PyErr (List ScanEvent) :=
  match c with
  | (mktA, legA, mktB, legB) =>
    match tokensLookup mktA legA with
    | .error e => .error e
    | .ok tA =>
      match tokensLookup mktB legB with
      | .error e => .error e
      | .ok tB =>
        match best_bid (env tA) with
        | .error e => .error e
        | .ok bidA =>
          match best_bid (env tB) with
          | .error e => .error e
          | .ok bidB => .ok (evalCombo mktA legA mktB legB bidA bidB)

/-- The scan loop over a list of combinations: events accumulate in list
order; the first raising combination aborts the loop and the exception
propagates (its events, if any, were not yet produced — all of a
combination's observable events come after its bids are computed). -/
def scanGo (env : String → HttpResult) : List Combo →
    List ScanEvent × Option PyErr
  | [] => ([], none)
  | c :: rest =>
    match scanCombo env c with
    | .error e => ([], some e)
    | .ok evs =>
      let r := scanGo env rest
      (evs ++ r.1, r.2)

/-- `scan_exit_opportunities()`: the loop over `MONITORED_COMBOS`,
returning the events produced and the uncaught exception, if any. -/
def scan_exit_opportunities (env : String → HttpResult) :
    List ScanEvent × Option PyErr :=
  scanGo env MONITORED_COMBOS

-- ===== Top-level guard (src/main.py lines 146-151) =====

/-- Representative `str(e)` text of each modelled exception (for
`KeyError` Python reports the repr of the missing key). -/
def errText : PyErr → String
  | .typeError => "TypeError"
  | .attributeError => "AttributeError"
  | .keyError k => "\x27" ++ k ++ "\x27"
  | .httpError => "HTTPError"
  | .connectionError => "ConnectionError"
  | .jsonDecodeError => "JSONDecodeError"

/-- The crash-report message `f"❌ Exit monitor crashed:\n{e}"`. -/
def crashMsg (e : PyErr) : String :=
  "❌ Exit monitor crashed:\n" ++ errText e

/-- The `__main__` guard: run the scan; on an uncaught exception invoke
the Notifier once with the crash report and re-raise.  The result records
the scan's events, the list of top-level Notifier invocations (message and
what `telegram_send` did with it), and the exception that escapes the
process, if any. -/
def main_run (cfg : TelegramConfig) (net : SendOutcome)
    (env : String → HttpResult) :
    List ScanEvent × List (String × TelegramResult) × Option PyErr :=
  match scan_exit_opportunities env with
  | (evs, none) => (evs, [], none)
  | (evs, some e) =>
    (evs, [(crashMsg e, telegram_send cfg net (crashMsg e))], some e)

-- ===== Helper lemmas =====

/-- The `best_bid` loop over a list of dict entries never raises and
computes the running-maximum fold of the coercible prices. -/
theorem bestLoop_eq_runMax (bids : List JVal) :
    ∀ best, (∀ b ∈ bids, isObjB b = true) →
      bestLoop best bids = Except.ok (runMax best (bids.filterMap entryPrice)) := by
  induction bids with
  | nil => intro best _; rfl
  | cons b rest ih =>
    intro best hobj
    have hb := hobj b (List.mem_cons_self b rest)
    obtain ⟨fs, rfl⟩ : ∃ fs, b = JVal.obj fs := by
      cases b
      case obj fs => exact ⟨fs, rfl⟩
      all_goals simp [isObjB] at hb
    have hrest : ∀ x ∈ rest, isObjB x = true := fun x hx =>
      hobj x (List.mem_cons_of_mem _ hx)
    cases hp : safe_float ((assocFind fs "price").getD JVal.null) with
    | none =>
      simpa [bestLoop, bidStep, hp, entryPrice, List.filterMap_cons] using
        ih best hrest
    | some p =>
      simpa [bestLoop, bidStep, hp, entryPrice, List.filterMap_cons, runMax] using
        ih (runStep best p) hrest

/-- The running-maximum fold started at `some m` returns a maximum of `m`
and the traversed prices. -/
theorem runMax_spec (ps : List ℚ) :
    ∀ m : ℚ, ∃ mx, runMax (some m) ps = some mx ∧ m ≤ mx
      ∧ (mx = m ∨ mx ∈ ps) ∧ ∀ p ∈ ps, p ≤ mx := by
  induction ps with
  | nil => intro m; exact ⟨m, rfl, le_refl m, Or.inl rfl, by simp⟩
  | cons p rest ih =>
    intro m
    by_cases h : p > m
    · obtain ⟨mx, h1, h2, h3, h4⟩ := ih p
      refine ⟨mx, ?_, le_of_lt (lt_of_lt_of_le h h2), ?_, ?_⟩
      · simpa [runMax, runStep, h] using h1
      · rcases h3 with h3 | h3
        · exact Or.inr (h3 ▸ List.mem_cons_self p rest)
        · exact Or.inr (List.mem_cons_of_mem _ h3)
      · intro q hq
        rcases List.mem_cons.mp hq with rfl | hq
        · exact h2
        · exact h4 q hq
    · obtain ⟨mx, h1, h2, h3, h4⟩ := ih m
      refine ⟨mx, ?_, h2, ?_, ?_⟩
      · simpa [runMax, runStep, h] using h1
      · rcases h3 with h3 | h3
        · exact Or.inl h3
        · exact Or.inr (List.mem_cons_of_mem _ h3)
      · intro q hq
        rcases List.mem_cons.mp hq with rfl | hq
        · exact le_trans (not_lt.mp h) h2
        · exact h4 q hq

/-- Reduction of `best_bid_raw` on a dict snapshot whose `"bids"` field is
a list: it runs the maximum loop over the list's entries. -/
theorem best_bid_raw_obj (fields : List (String × JVal)) (bids : List JVal)
    (hget : assocFind fields "bids" = some (JVal.list bids)) :
    best_bid_raw (some (JVal.obj fields)) = bestLoop none bids := by
  have hfne : fields ≠ [] := by
    intro h
    subst h
    simp [assocFind, List.find?] at hget
  have htr : truthy (JVal.obj fields) = true := by
    cases fields with
    | nil => exact absurd rfl hfne
    | cons a l => simp [truthy]
  simp [best_bid_raw, htr, hasMember, hget, subscript, iterElems]

-- ===== Claim theorems =====

/-- C1: for every order-book snapshot whose bid list is non-empty and
contains at least one entry whose price field coerces to a number (each
entry being a dict, on which `b.get` is defined), `best_bid` returns the
maximum of the numeric-coercible prices, ignoring entries whose price
fails coercion, via the single-pass running-maximum loop. -/
theorem C1_best_bid_returns_max (fields : List (String × JVal)) (bids : List JVal)
    (hget : assocFind fields "bids" = some (JVal.list bids))
    (hobj : ∀ b ∈ bids, isObjB b = true)
    (hne : bids.filterMap entryPrice ≠ []) :
    ∃ mx, best_bid_raw (some (JVal.obj fields)) = Except.ok (some mx)
      ∧ mx ∈ bids.filterMap entryPrice
      ∧ ∀ p ∈ bids.filterMap entryPrice, p ≤ mx := by
  rw [best_bid_raw_obj fields bids hget, bestLoop_eq_runMax bids none hobj]
  cases hps : bids.filterMap entryPrice with
  | nil => exact absurd hps hne
  | cons p ps =>
    obtain ⟨mx, h1, h2, h3, h4⟩ := runMax_spec ps p
    refine ⟨mx, ?_, ?_, ?_⟩
    · rw [show runMax none (p :: ps) = runMax (some p) ps from rfl, h1]
    · rcases h3 with rfl | h3
      · exact List.mem_cons_self _ _
      · exact List.mem_cons_of_mem _ h3
    · intro q hq
      rcases List.mem_cons.mp hq with rfl | hq
      · exact h2
      · exact h4 q hq

/-- Witness for C1 at a concrete snapshot: bids priced "0.40", "abc"
(ignored) and 0.55; the maximum of the coercible prices is returned. -/
theorem C1_best_bid_returns_max_witness :
    ∃ mx, best_bid_raw (some (JVal.obj [("bids", JVal.list
        [JVal.obj [("price", JVal.str "0.40")],
         JVal.obj [("price", JVal.str "abc")],
         JVal.obj [("price", JVal.num (mkRat 55 100))]])]))
        = Except.ok (some mx)
      ∧ mx ∈ ([JVal.obj [("price", JVal.str "0.40")],
         JVal.obj [("price", JVal.str "abc")],
         JVal.obj [("price", JVal.num (mkRat 55 100))]].filterMap entryPrice)
      ∧ ∀ p ∈ ([JVal.obj [("price", JVal.str "0.40")],
         JVal.obj [("price", JVal.str "abc")],
         JVal.obj [("price", JVal.num (mkRat 55 100))]].filterMap entryPrice),
          p ≤ mx :=
  C1_best_bid_returns_max _ _ rfl (by decide) (by decide)

/-- C2: `best_bid` returns the "no value" marker when the fetched snapshot
is `None`, or is a dict lacking a `"bids"` key, or its bid list holds only
dict entries whose price fails numeric coercion (the empty bid list being
the special case with no entries at all). -/
theorem C2_best_bid_no_value (raw : Option JVal)
    (h : raw = none
       ∨ (∃ fields, raw = some (JVal.obj fields)
            ∧ assocFind fields "bids" = none)
       ∨ (∃ fields bids, raw = some (JVal.obj fields)
            ∧ assocFind fields "bids" = some (JVal.list bids)
            ∧ ∀ b ∈ bids, isObjB b = true ∧ entryPrice b = none)) :
    best_bid_raw raw = Except.ok none := by
  rcases h with rfl | ⟨fields, rfl, hget⟩ | ⟨fields, bids, rfl, hget, hbids⟩
  · rfl
  · cases hf : truthy (JVal.obj fields) <;>
      simp [best_bid_raw, hf, hasMember, hget]
  · rw [best_bid_raw_obj fields bids hget,
      bestLoop_eq_runMax bids none (fun b hb => (hbids b hb).1)]
    have : bids.filterMap entryPrice = [] :=
      List.filterMap_eq_nil_iff.mpr (fun b hb => (hbids b hb).2)
    rw [this]
    rfl

/-- Witness for C2 at a concrete snapshot whose single bid entry has the
non-coercible price "abc". -/
theorem C2_best_bid_no_value_witness :
    best_bid_raw (some (JVal.obj [("bids", JVal.list
        [JVal.obj [("price", JVal.str "abc")]])])) = Except.ok none :=
  C2_best_bid_no_value _ (Or.inr (Or.inr ⟨_, _, rfl, rfl, by decide⟩))

/-- C10: a parseable order-book body whose `"bids"` list holds an entry
that is not a dict (here the bare string "x") makes `best_bid` raise
(`AttributeError` from `b.get`) instead of skipping the entry or returning
the "no value" marker, so such a body can escalate to the top-level crash
path. -/
theorem C10_best_bid_raises_on_nonmapping_entry :
    best_bid (HttpResult.status 200 (some (JVal.obj
        [("bids", JVal.list [JVal.str "x"])])))
      = Except.error PyErr.attributeError := rfl

unseal Rat.add Rat.mul Rat.sub Rat.inv in
/-- C8: `safe_float` never raises (it is a total function into
`Option ℚ`, with no side effects): numbers are returned as-is, valid
numeric strings round-trip ("0.73" to 0.73), and conversion failures
(malformed string "abc", absent value `None`) give the "no value"
marker. -/
theorem C8_safe_float_total (q : ℚ) :
    safe_float (JVal.num q) = some q
  ∧ safe_float (JVal.str "0.73") = some (mkRat 73 100)
  ∧ safe_float (JVal.str "abc") = none
  ∧ safe_float JVal.null = none := by
  refine ⟨rfl, ?_, ?_, rfl⟩ <;> decide

/-- Witness for C8 at the concrete number 1/2. -/
theorem C8_safe_float_total_witness :
    safe_float (JVal.num (mkRat 1 2)) = some (mkRat 1 2)
  ∧ safe_float (JVal.str "0.73") = some (mkRat 73 100)
  ∧ safe_float (JVal.str "abc") = none
  ∧ safe_float JVal.null = none := C8_safe_float_total (mkRat 1 2)

/-- C5: `fetch_orderbook` never raises (it is a total function into
`Option JVal`): on HTTP success (status below 400) with a parseable JSON
body it returns the parsed structure, and whenever its `try` body raises
(network failure, 4xx/5xx status, malformed body) it returns the
"no value" marker. -/
theorem C5_fetch_orderbook_never_raises (r : HttpResult) :
    (∀ code j, r = HttpResult.status code (some j) → code < 400 →
        fetch_orderbook r = some j)
  ∧ (∀ e, fetchBody r = Except.error e → fetch_orderbook r = none) := by
  constructor
  · rintro code j rfl hcode
    simp [fetch_orderbook, fetchBody, raise_for_status, Nat.not_le.mpr hcode]
  · intro e he
    simp [fetch_orderbook, he]

/-- Witness for C5: a 200 response with body `{}` is returned parsed, and
a network failure gives the "no value" marker. -/
theorem C5_fetch_orderbook_never_raises_witness :
    fetch_orderbook (HttpResult.status 200 (some (JVal.obj []))) = some (JVal.obj [])
  ∧ fetch_orderbook HttpResult.netFail = none :=
  ⟨(C5_fetch_orderbook_never_raises _).1 200 _ rfl (by decide),
   (C5_fetch_orderbook_never_raises _).2 PyErr.connectionError rfl⟩

/-- C6: `telegram_send` never raises (it is a total function into
`TelegramResult`): with either credential unset (or empty) it reports the
not-configured no-op without any HTTP attempt, and otherwise an exception
during the HTTP call is caught and logged, never surfaced to the
caller. -/
theorem C6_telegram_send_never_raises (cfg : TelegramConfig)
    (net : SendOutcome) (msg : String) :
    ((strTruthy cfg.botToken = false ∨ strTruthy cfg.chatId = false) →
        telegram_send cfg net msg = TelegramResult.notConfigured)
  ∧ (strTruthy cfg.botToken = true → strTruthy cfg.chatId = true →
      net = SendOutcome.exn →
        telegram_send cfg net msg
          = TelegramResult.errorLogged ⟨cfg.chatId.getD "", msg, "HTML"⟩)
  ∧ (strTruthy cfg.botToken = true → strTruthy cfg.chatId = true →
      net = SendOutcome.posted →
        telegram_send cfg net msg
          = TelegramResult.sent ⟨cfg.chatId.getD "", msg, "HTML"⟩) := by
  refine ⟨?_, ?_, ?_⟩
  · intro h
    rcases h with h | h <;> simp [telegram_send, h]
  · rintro h1 h2 rfl
    simp [telegram_send, h1, h2]
  · rintro h1 h2 rfl
    simp [telegram_send, h1, h2]

/-- Witness for C6: unset credentials give the configured no-op, and with
credentials set a failing HTTP call is swallowed as a logged error. -/
theorem C6_telegram_send_never_raises_witness :
    telegram_send ⟨none, none⟩ SendOutcome.posted "hi"
      = TelegramResult.notConfigured
  ∧ telegram_send ⟨some "t", some "c"⟩ SendOutcome.exn "hi"
      = TelegramResult.errorLogged ⟨"c", "hi", "HTML"⟩ :=
  ⟨(C6_telegram_send_never_raises ⟨none, none⟩ SendOutcome.posted "hi").1
      (Or.inl (by decide)),
   (C6_telegram_send_never_raises ⟨some "t", some "c"⟩ SendOutcome.exn "hi").2.1
      (by decide) (by decide) rfl⟩

/-- C9: in the shipped static configuration, every (market, leg) pair
referenced by a monitored combination resolves in the `TOKENS` mapping,
so the scanner's lookup step cannot raise `KeyError` for this
configuration. -/
theorem C9_combos_resolve :
    MONITORED_COMBOS.all (fun c =>
      exceptOk (tokensLookup c.1 c.2.1)
        && exceptOk (tokensLookup c.2.2.1 c.2.2.2)) = true := by decide

/-- The alert message contains the total formatted to 4 decimal places. -/
theorem strContains_alertMsg_total (mktA legA mktB legB : String) (total : ℚ) :
    StrContains (alertMsg mktA legA mktB legB total) (formatFixed 4 total) := by
  refine ⟨"💰 <b>EXIT OPPORTUNITY</b>\n\n" ++ mktA ++ " " ++ legA ++ " + "
      ++ mktB ++ " " ++ legB ++ "\n" ++ "Bid sum: <b>",
    "</b>\n" ++ "Threshold: " ++ formatFixed 2 THRESHOLD ++ "\n\n"
      ++ "Consider selling both positions.", ?_⟩
  simp [alertMsg, String.append_assoc]

/-- The alert message contains the threshold formatted to 2 decimal
places. -/
theorem strContains_alertMsg_threshold (mktA legA mktB legB : String) (total : ℚ) :
    StrContains (alertMsg mktA legA mktB legB total) (formatFixed 2 THRESHOLD) := by
  refine ⟨"💰 <b>EXIT OPPORTUNITY</b>\n\n" ++ mktA ++ " " ++ legA ++ " + "
      ++ mktB ++ " " ++ legB ++ "\n" ++ "Bid sum: <b>" ++ formatFixed 4 total
      ++ "</b>\n" ++ "Threshold: ",
    "\n\n" ++ "Consider selling both positions.", ?_⟩
  simp [alertMsg, String.append_assoc]

/-- The crash-report message contains the exception text. -/
theorem strContains_crashMsg (e : PyErr) :
    StrContains (crashMsg e) (errText e) := by
  refine ⟨"❌ Exit monitor crashed:\n", "", ?_⟩
  simp [crashMsg, String.append_empty]

/-- C3: with both best bids present, the scanner invokes the Notifier iff
`total = bidA + bidB` reaches `THRESHOLD`; when it does, the alert message
contains the total to 4 decimal places and the threshold to 2 decimal
places; when it does not, no notification happens but the per-combination
evaluation line is still logged. -/
theorem C3_threshold_alert (mktA legA mktB legB : String) (a b : ℚ) :
    ((∃ m, ScanEvent.notify m ∈ evalCombo mktA legA mktB legB (some a) (some b))
        ↔ a + b ≥ THRESHOLD)
  ∧ (a + b ≥ THRESHOLD →
        ScanEvent.notify (alertMsg mktA legA mktB legB (a + b))
            ∈ evalCombo mktA legA mktB legB (some a) (some b)
        ∧ StrContains (alertMsg mktA legA mktB legB (a + b)) (formatFixed 4 (a + b))
        ∧ StrContains (alertMsg mktA legA mktB legB (a + b)) (formatFixed 2 THRESHOLD))
  ∧ (a + b < THRESHOLD →
        (∀ m, ScanEvent.notify m ∉ evalCombo mktA legA mktB legB (some a) (some b))
        ∧ ScanEvent.evalLine mktA legA mktB legB a b (a + b)
            ∈ evalCombo mktA legA mktB legB (some a) (some b)) := by
  by_cases h : a + b ≥ THRESHOLD
  · refine ⟨⟨fun _ => h, fun _ => ⟨alertMsg mktA legA mktB legB (a + b),
        by simp [evalCombo, h]⟩⟩,
      fun _ => ⟨by simp [evalCombo, h],
        strContains_alertMsg_total mktA legA mktB legB (a + b),
        strContains_alertMsg_threshold mktA legA mktB legB (a + b)⟩,
      fun hlt => absurd h (not_le.mpr hlt)⟩
  · refine ⟨⟨?_, fun hge => absurd hge h⟩, fun hge => absurd hge h,
      fun _ => ⟨?_, by simp [evalCombo, h]⟩⟩
    · rintro ⟨m, hm⟩
      simp [evalCombo, h] at hm
    · intro m hm
      simp [evalCombo, h] at hm

unseal Rat.add Rat.mul Rat.sub Rat.inv in
/-- Witness for C3 at bidA = 0.52, bidB = 0.50: the Notifier is invoked
with the alert message, whose total reads "1.0200" and threshold
"1.01". -/
theorem C3_threshold_alert_witness :
    (ScanEvent.notify (alertMsg "CUT25" "YES" "CUTCUTPAUSE" "YES"
          (mkRat 52 100 + mkRat 50 100))
        ∈ evalCombo "CUT25" "YES" "CUTCUTPAUSE" "YES"
            (some (mkRat 52 100)) (some (mkRat 50 100))
      ∧ StrContains (alertMsg "CUT25" "YES" "CUTCUTPAUSE" "YES"
          (mkRat 52 100 + mkRat 50 100)) (formatFixed 4 (mkRat 52 100 + mkRat 50 100))
      ∧ StrContains (alertMsg "CUT25" "YES" "CUTCUTPAUSE" "YES"
          (mkRat 52 100 + mkRat 50 100)) (formatFixed 2 THRESHOLD))
  ∧ formatFixed 4 (mkRat 52 100 + mkRat 50 100) = "1.0200"
  ∧ formatFixed 2 THRESHOLD = "1.01" :=
  ⟨(C3_threshold_alert "CUT25" "YES" "CUTCUTPAUSE" "YES"
      (mkRat 52 100) (mkRat 50 100)).2.1 (by decide), by decide, by decide⟩

/-- C4: when at least one best bid is missing, that combination produces
exactly the "missing bids" log line, invokes no Notifier, raises nothing,
and the scan proceeds to the remaining combinations, whose outcome is
unaffected. -/
theorem C4_missing_bids (env : String → HttpResult)
    (mktA legA mktB legB tA tB : String) (rest : List Combo)
    (oa ob : Option ℚ)
    (hA : tokensLookup mktA legA = Except.ok tA)
    (hB : tokensLookup mktB legB = Except.ok tB)
    (ha : best_bid (env tA) = Except.ok oa)
    (hb : best_bid (env tB) = Except.ok ob)
    (hmiss : oa = none ∨ ob = none) :
    scanCombo env (mktA, legA, mktB, legB)
        = Except.ok [ScanEvent.missingBids mktA legA mktB legB]
    ∧ (∀ m, ScanEvent.notify m ∉ [ScanEvent.missingBids mktA legA mktB legB])
    ∧ scanGo env ((mktA, legA, mktB, legB) :: rest)
        = (ScanEvent.missingBids mktA legA mktB legB :: (scanGo env rest).1,
           (scanGo env rest).2) := by
  have hev : evalCombo mktA legA mktB legB oa ob
      = [ScanEvent.missingBids mktA legA mktB legB] := by
    rcases hmiss with rfl | rfl
    · cases ob <;> rfl
    · cases oa <;> rfl
  have hcombo : scanCombo env (mktA, legA, mktB, legB)
      = Except.ok [ScanEvent.missingBids mktA legA mktB legB] := by
    simp [scanCombo, hA, hB, ha, hb, hev]
  refine ⟨hcombo, ?_, ?_⟩
  · intro m hm
    simp at hm
  · simp [scanGo, hcombo]

/-- Witness for C4: with every fetch failing, the first shipped
combination is skipped with a "missing bids" line and the scan goes on. -/
theorem C4_missing_bids_witness :
    scanCombo (fun _ => HttpResult.netFail) ("CUT25", "YES", "CUTCUTPAUSE", "YES")
        = Except.ok [ScanEvent.missingBids "CUT25" "YES" "CUTCUTPAUSE" "YES"]
    ∧ (∀ m, ScanEvent.notify m
        ∉ [ScanEvent.missingBids "CUT25" "YES" "CUTCUTPAUSE" "YES"])
    ∧ scanGo (fun _ => HttpResult.netFail)
          (("CUT25", "YES", "CUTCUTPAUSE", "YES") :: [("NOCHANGE", "YES", "CUTCUTCUT", "YES")])
        = (ScanEvent.missingBids "CUT25" "YES" "CUTCUTPAUSE" "YES"
            :: (scanGo (fun _ => HttpResult.netFail) [("NOCHANGE", "YES", "CUTCUTCUT", "YES")]).1,
           (scanGo (fun _ => HttpResult.netFail) [("NOCHANGE", "YES", "CUTCUTCUT", "YES")]).2) :=
  C4_missing_bids (fun _ => HttpResult.netFail) "CUT25" "YES" "CUTCUTPAUSE" "YES"
    "92703761682322480664976766247614127878023988651992837287050266308961660624165"
    "113401754986342384261044700457165882158632153698445535217371023842472815025478"
    [("NOCHANGE", "YES", "CUTCUTCUT", "YES")] none none rfl rfl rfl rfl (Or.inl rfl)

/-- C7: an uncaught exception escaping the scan makes the top-level guard
invoke the Notifier exactly once with a crash report containing the
exception text, and re-raise the same exception; a clean scan raises
nothing and triggers no crash notification. -/
theorem C7_crash_guard (cfg : TelegramConfig) (net : SendOutcome)
    (env : String → HttpResult) :
    (∀ e evs, scan_exit_opportunities env = (evs, some e) →
        main_run cfg net env
            = (evs, [(crashMsg e, telegram_send cfg net (crashMsg e))], some e)
        ∧ StrContains (crashMsg e) (errText e))
  ∧ (∀ evs, scan_exit_opportunities env = (evs, none) →
        main_run cfg net env = (evs, [], none)) := by
  constructor
  · intro e evs h
    exact ⟨by simp [main_run, h], strContains_crashMsg e⟩
  · intro evs h
    simp [main_run, h]

unseal Rat.add Rat.mul Rat.sub Rat.inv in
/-- Witness for C7: a parseable body with a non-dict bid entry crashes the
scan with `AttributeError`; the guard sends one crash notification and the
exception escapes. -/
theorem C7_crash_guard_witness :
    main_run ⟨none, none⟩ SendOutcome.posted
        (fun _ => HttpResult.status 200
          (some (JVal.obj [("bids", JVal.list [JVal.str "x"])])))
      = ([], [(crashMsg PyErr.attributeError,
          telegram_send ⟨none, none⟩ SendOutcome.posted
            (crashMsg PyErr.attributeError))], some PyErr.attributeError)
    ∧ StrContains (crashMsg PyErr.attributeError) (errText PyErr.attributeError) :=
  (C7_crash_guard ⟨none, none⟩ SendOutcome.posted
      (fun _ => HttpResult.status 200
        (some (JVal.obj [("bids", JVal.list [JVal.str "x"])])))).1
    PyErr.attributeError [] (by decide)
